import Mathlib

/-!
Shallow embedding of the analysis pipeline in `app/utils/data_analyzer.py`
(class `DataAnalyzer`): loader, standardization + PCA, elbow-based model
selection, k-means clustering, biplot reporting and export.  Numeric grades
and derived quantities are modelled as exact rationals; the stateful
analyzer object becomes an explicit `AnalyzerState` record threaded through
each operation; Python `try/except` boundaries become `Except String`
results.  External library calls (scikit-learn, numpy, plotly) are modelled
by their documented input/output behaviour at the exact call sites the
source uses, as noted on each definition.
-/

/-- Decidable equality for `Except`, used to evaluate pipeline results on
concrete inputs. -/
instance {ε α : Type} [DecidableEq ε] [DecidableEq α] : DecidableEq (Except ε α) := fun a b =>
  match a, b with
  | .ok x, .ok y =>
      if h : x = y then .isTrue (by rw [h]) else .isFalse (by intro hc; cases hc; exact h rfl)
  | .error x, .error y =>
      if h : x = y then .isTrue (by rw [h]) else .isFalse (by intro hc; cases hc; exact h rfl)
  | .ok _, .error _ => .isFalse (by intro hc; cases hc)
  | .error _, .ok _ => .isFalse (by intro hc; cases hc)

/-- Model of `np.diff`: adjacent differences `a[i+1] - a[i]`. -/
def npDiff (l : List ℚ) : List ℚ := (l.zip l.tail).map fun p => p.2 - p.1

/-- Helper for `npArgmax`: fold keeping the first index attaining the maximum
(`best`/`bv` are the best index and value so far, `i` the current index). -/
def npArgmaxGo (best : ℕ) (bv : ℚ) (i : ℕ) : List ℚ → ℕ
  | [] => best
  | y :: ys => if bv < y then npArgmaxGo i y (i + 1) ys else npArgmaxGo best bv (i + 1) ys

/-- Model of `np.argmax`: index of the first occurrence of the maximum
(0 on an empty array, where numpy instead raises; never hit by the source). -/
def npArgmax : List ℚ → ℕ
  | [] => 0
  | x :: xs => npArgmaxGo 0 x 1 xs

/-- Model of `np.cumsum`: running partial sums. -/
def npCumsum (l : List ℚ) : List ℚ := (l.scanl (· + ·) 0).tail

/-- One student record as the analysis router hands it to the pipeline:
a `matricule` identifier plus the `grades` JSON object (finite map from
module name to numeric grade, modelled as an association list). -/
structure StudentRecord where
  matricule : String
  grades : List (String × ℚ)
deriving Repr, DecidableEq

/-- Grade cell of one record for one module; `none` models the NaN that
`pd.json_normalize` puts where the key is missing. -/
def lookupGrade (r : StudentRecord) (m : String) : Option ℚ :=
  (r.grades.find? fun g => g.1 = m).map Prod.snd

/-- A module is a column of `pd.json_normalize(df['grades'])` iff some
record's grades object has that key. -/
def moduleAvailable (records : List StudentRecord) (m : String) : Bool :=
  records.any fun r => (lookupGrade r m).isSome

/-- `available_modules = [mod for mod in selected_modules if mod in grades_df.columns]`
(data_analyzer.py line 46). -/
def availableModules (records : List StudentRecord) (selected : List String) : List String :=
  selected.filter (moduleAvailable records)

/-- Row survival under `grades_df.dropna()` restricted to the resolved
columns (line 58): every resolved module present in the record. -/
def rowComplete (mods : List String) (r : StudentRecord) : Bool :=
  mods.all fun m => (lookupGrade r m).isSome

/-- Success payload of `load_data` (lines 70-75). -/
structure LoadPayload where
  data_shape : ℕ × ℕ
  available_modules : List String
  sample_count : ℕ
deriving Repr, DecidableEq

/-- Mutable fields of the `DataAnalyzer` object (lines 23-32).  `pca` keeps
the fitted component count of the `PCA` object; `kmeans` keeps the fitted
labels and inertia of the `KMeans` object. -/
structure AnalyzerState where
  data : Option (List (List ℚ))
  selected_modules : Option (List String)
  matricules : Option (List String)
  pca : Option ℕ
  pca_data : Option (List (List ℚ))
  kmeans : Option (List ℕ × ℚ)
  cluster_labels : Option (List ℕ)
  explained_variance : Option (List ℚ)
  loadings : Option (List (List ℚ))
deriving Repr, DecidableEq

/-- `DataAnalyzer.__init__`: every pipeline field starts at `None`. -/
def initState : AnalyzerState :=
  ⟨none, none, none, none, none, none, none, none, none⟩

/-- `DataAnalyzer.load_data` (lines 34-81), on records carrying a `grades`
object.  Failure paths re-raise inside the method's `try` and surface as
`{'success': False, 'error': str(e)}`; no `self` field is assigned before
either raise, so the state is returned unchanged on failure. -/
def loadData (st : AnalyzerState) (students : List StudentRecord) (selected : List String) :
    AnalyzerState × Except String LoadPayload :=
  let avail := availableModules students selected
  if avail.isEmpty then
    (st, .error "None of the selected modules are available in the data")
  else
    let kept := students.filter (rowComplete avail)
    if kept.isEmpty then
      (st, .error "No valid data after removing missing values")
    else
      let matrix := kept.map fun r => avail.map fun m => (lookupGrade r m).getD 0
      let mats := kept.map (·.matricule)
      ({ st with
          data := some matrix
          selected_modules := some avail
          matricules := some mats },
        .ok ⟨(kept.length, avail.length), avail, kept.length⟩)

/-- Population mean of a column (`StandardScaler` uses population statistics);
`0` on the empty column, which the pipeline never produces. -/
def colMean (c : List ℚ) : ℚ := c.sum / c.length

/-- Population variance of a column. -/
def colVar (c : List ℚ) : ℚ := (c.map fun x => (x - colMean c) ^ 2).sum / c.length

/-- Nonzero divisor used by `StandardScaler`: scikit-learn divides by the
population standard deviation, substituting `1` when it is zero
(`_handle_zeros_in_scale`).  The true divisor is the square root of the
variance, an irrational number; this rational model keeps the variance
itself as the divisor, which preserves the only facts any claim uses:
the divisor is `1` exactly on zero-variance columns and nonzero otherwise. -/
def scaleOf (c : List ℚ) : ℚ := if colVar c = 0 then 1 else colVar c

/-- `StandardScaler` transform of one column: center, then divide by the
(zero-guarded) scale. -/
def standardizeColumn (c : List ℚ) : List ℚ :=
  c.map fun x => (x - colMean c) / scaleOf c

/-- Column `j` of a rectangular row-major matrix. -/
def nthColumn (X : List (List ℚ)) (j : ℕ) : List ℚ := X.map fun r => r.getD j 0

/-- Column count of a rectangular row-major matrix (`shape[1]`). -/
def numCols (X : List (List ℚ)) : ℕ := (X.headD []).length

/-- The columns of a rectangular row-major matrix. -/
def matCols (X : List (List ℚ)) : List (List ℚ) :=
  (List.range (numCols X)).map (nthColumn X)

/-- `self.scaler.fit_transform(self.data)` (line 92): standardize each column
and reassemble the rows. -/
def standardizeMatrix (X : List (List ℚ)) : List (List ℚ) :=
  let cols := (matCols X).map standardizeColumn
  (List.range X.length).map fun i => cols.map fun c => c.getD i 0

/-- Interface of the scikit-learn `PCA` factorization at the three outputs
the source reads from a fitted model: `explained_variance_ratio_`,
`fit_transform`'s reduced matrix, and `components_`.  The eigendecomposition
itself is external library code; theorems that depend on its documented
guarantees take them as an explicit contract hypothesis (`PCAContract`). -/
structure PCABackend where
  ratios : List (List ℚ) → ℕ → List ℚ
  transform : List (List ℚ) → ℕ → List (List ℚ)
  components : List (List ℚ) → ℕ → List (List ℚ)

/-- Documented guarantees of `PCA.explained_variance_ratio_`: componentwise
nonnegative, ordered by descending explained variance, summing to at most 1. -/
def PCAContract (B : PCABackend) : Prop :=
  ∀ X m, (∀ r ∈ B.ratios X m, 0 ≤ r) ∧
    List.Chain' (· ≥ ·) (B.ratios X m) ∧ (B.ratios X m).sum ≤ 1

/-- Success payload of `perform_pca` (lines 116-125); the two plot strings
are omitted (pure renderings of `explained_variance`). -/
structure PCAPayload where
  explained_variance : List ℚ
  cumulative_variance : List ℚ
  loadings : List (List ℚ)
  n_components : ℕ
  pca_data_shape : ℕ × ℕ
deriving Repr, DecidableEq

/-- `DataAnalyzer.perform_pca` (lines 83-131).  The component count defaults
to `min(len(self.selected_modules), len(self.data))` (line 96); scikit-learn's
`PCA.fit` raises `ValueError` when `n_components` exceeds
`min(n_samples, n_features)`, which the method's `except` turns into a
failure result -- by then `self.pca` was already assigned (line 99), so that
field is mutated even on this failure path. -/
def performPca (B : PCABackend) (st : AnalyzerState) (nComponents : Option ℕ) :
    AnalyzerState × Except String PCAPayload :=
  match st.data, st.selected_modules with
  | some X, some mods =>
      let scaled := standardizeMatrix X
      let m := nComponents.getD (min mods.length X.length)
      if min X.length mods.length < m then
        ({ st with pca := some m },
          .error "n_components must be between 0 and min(n_samples, n_features)")
      else
        let ev := B.ratios scaled m
        let pd := B.transform scaled m
        let lds := B.components scaled m
        ({ st with
            pca := some m
            pca_data := some pd
            explained_variance := some ev
            loadings := some lds },
          .ok ⟨ev, npCumsum ev, lds, m, (pd.length, numCols pd)⟩)
  | _, _ => (st, .error "No data loaded. Call load_data first.")

/-- Squared Euclidean distance between two points (k-means inertia is a sum
of these, so no square root is involved). -/
def sqDist (p q : List ℚ) : ℚ := ((p.zip q).map fun z => (z.1 - z.2) ^ 2).sum

/-- Helper keeping the first index attaining the minimum. -/
def argminGo (best : ℕ) (bv : ℚ) (i : ℕ) : List ℚ → ℕ
  | [] => best
  | y :: ys => if y < bv then argminGo i y (i + 1) ys else argminGo best bv (i + 1) ys

/-- Index of the centroid nearest to a point (ties to the lowest index). -/
def nearestCentroid (cs : List (List ℚ)) (p : List ℚ) : ℕ :=
  match cs.map (sqDist p) with
  | [] => 0
  | d :: ds => argminGo 0 d 1 ds

/-- Assignment step of Lloyd iteration. -/
def assignLabels (cs : List (List ℚ)) (X : List (List ℚ)) : List ℕ :=
  X.map (nearestCentroid cs)

/-- Componentwise mean of a point set. -/
def meanVec (pts : List (List ℚ)) : List ℚ := (matCols pts).map colMean

/-- Update step for one centroid: mean of its assigned points, kept
unchanged when the cluster is empty. -/
def updateCentroid (X : List (List ℚ)) (labels : List ℕ) (j : ℕ) (old : List ℚ) : List ℚ :=
  let pts := ((X.zip labels).filter fun z => z.2 = j).map Prod.fst
  if pts.isEmpty then old else meanVec pts

/-- Update step of Lloyd iteration. -/
def updateCentroids (X : List (List ℚ)) (labels : List ℕ) (cs : List (List ℚ)) :
    List (List ℚ) :=
  cs.enum.map fun jc => updateCentroid X labels jc.1 jc.2

/-- Lloyd iteration to a fixed point or an iteration cap (scikit-learn's
`max_iter` defaults to 300). -/
def lloyd : ℕ → List (List ℚ) → List (List ℚ) → List (List ℚ)
  | 0, _, cs => cs
  | fuel + 1, X, cs =>
      let cs2 := updateCentroids X (assignLabels cs X) cs
      if cs2 = cs then cs else lloyd fuel X cs2

/-- Within-cluster sum of squared distances to assigned centroids. -/
def inertiaOf (X : List (List ℚ)) (cs : List (List ℚ)) : ℚ :=
  (X.map fun p => sqDist p (cs.getD (nearestCentroid cs p) [])).sum

/-- Seeded deterministic initialization: centroid rows are chosen by a fixed
arithmetic function of the seed, modelling scikit-learn's seeded
reproducible initialization (the source always passes `random_state=42`). -/
def initCentroids (seed : ℕ) (X : List (List ℚ)) (k : ℕ) : List (List ℚ) :=
  (List.range k).map fun i => X.getD ((seed * 7919 + i * 104729) % X.length) []

/-- One seeded k-means run: labels and inertia. -/
def kmeansSingle (seed : ℕ) (X : List (List ℚ)) (k : ℕ) : List ℕ × ℚ :=
  let cs := lloyd 300 X (initCentroids seed X k)
  (assignLabels cs X, inertiaOf X cs)

/-- Keep the run of lowest inertia (first minimum). -/
def bestRun : List ℕ × ℚ → List (List ℕ × ℚ) → List ℕ × ℚ
  | acc, [] => acc
  | acc, s :: ss => if s.2 < acc.2 then bestRun s ss else bestRun acc ss

/-- Model of `KMeans(n_clusters=k, random_state=rs, n_init=ni).fit` on a
matrix: `ni` restarts from seeds derived from the fixed random state,
keeping the lowest-inertia run.  A pure function of its arguments, encoding
scikit-learn's documented reproducibility under a fixed `random_state`. -/
def kmeansFit (randomState nInit : ℕ) (X : List (List ℚ)) (k : ℕ) : List ℕ × ℚ :=
  match (List.range nInit).map fun r => kmeansSingle (randomState + r) X k with
  | [] => ([], 0)
  | r :: rs => bestRun r rs

/-- `k_range = range(1, min(max_k + 1, len(self.pca_data)))` (line 141). -/
def selectorKRange (maxK n : ℕ) : List ℕ := List.range' 1 (min (maxK + 1) n - 1)

/-- Fallback scan of `_find_elbow_point` (lines 410-412): first index `i ≥ 1`
where the inertia decrease drops below 70% of the preceding decrease. -/
def fallbackIdx (diffs : List ℚ) : Option ℕ :=
  (List.range' 1 (diffs.length - 1)).find? fun i =>
    |diffs.getD i 0| < |diffs.getD (i - 1) 0| * (7 / 10)

/-- `DataAnalyzer._find_elbow_point` (lines 394-414).  `none` models an
uncaught `IndexError` escaping the helper (possible only when the two lists
have mismatched lengths, which the caller never produces). -/
def findElbowPoint (kr : List ℕ) (inertias : List ℚ) : Option ℕ :=
  if inertias.length < 3 then
    some (kr.headD 2)
  else
    let diffs := npDiff inertias
    let diff2 := npDiff diffs
    if 0 < diff2.length ∧ npArgmax diff2 + 2 < kr.length then
      kr[npArgmax diff2 + 2]?
    else
      match fallbackIdx diffs with
      | some i => kr[i + 1]?
      | none => kr[min 3 (kr.length - 1)]?

/-- Success payload of `find_optimal_clusters` (lines 162-169); the elbow
plot string is omitted (a rendering of `k_range`/`inertias`/`optimal_k`),
but its one effectful step -- `k_range.index(optimal_k)`, which raises
`ValueError` when the recommended k is not among the candidates -- is kept
in `findOptimalClusters`. -/
structure SelectorPayload where
  k_range : List ℕ
  inertias : List ℚ
  silhouette_scores : List ℚ
  optimal_k : ℕ
deriving Repr, DecidableEq

/-- `DataAnalyzer.find_optimal_clusters` (lines 133-175).  `sil` abstracts
`sklearn.metrics.silhouette_score`, consulted only for `k > 1` (line 150);
its numeric value does not enter any control-flow decision here. -/
def findOptimalClusters (sil : List (List ℚ) → List ℕ → ℚ) (st : AnalyzerState) (maxK : ℕ) :
    AnalyzerState × Except String SelectorPayload :=
  match st.pca_data with
  | none => (st, .error "PCA not performed. Call perform_pca first.")
  | some X =>
      let kr := selectorKRange maxK X.length
      let inertias := kr.map fun k => (kmeansFit 42 10 X k).2
      let sils := kr.map fun k => if 1 < k then sil X (kmeansFit 42 10 X k).1 else 0
      match findElbowPoint kr inertias with
      | some optimalK =>
          if optimalK ∈ kr then
            (st, .ok ⟨kr, inertias, sils, optimalK⟩)
          else
            (st, .error (toString optimalK ++ " is not in list"))
      | none => (st, .error "list index out of range")

/-- Per-cluster summary from `_calculate_cluster_statistics` (lines 416-432).
The standard-deviation entry (an irrational square root) is omitted from the
model; no claim refers to it. -/
structure ClusterStats where
  size : ℕ
  percentage : ℚ
  mean_scores : List ℚ
  students : List String
deriving Repr, DecidableEq

/-- `_calculate_cluster_statistics`: per cluster label, member count,
percentage of all rows, per-feature means over the original feature matrix,
and the first 10 member identifiers. -/
def clusterStatistics (data : List (List ℚ)) (mats : List String) (labels : List ℕ)
    (nClusters : ℕ) : List ClusterStats :=
  (List.range nClusters).map fun c =>
    let members := ((data.zip labels).filter fun z => z.2 = c).map Prod.fst
    let memberMats := ((mats.zip labels).filter fun z => z.2 = c).map Prod.fst
    { size := members.length
      percentage := (members.length : ℚ) / data.length * 100
      mean_scores := (matCols members).map colMean
      students := memberMats.take 10 }

/-- Success payload of `perform_clustering` (lines 199-205):
`cluster_assignments` pairs each matricule with its label (the appended PC
coordinates are the rows of `pca_data` unchanged). -/
structure ClusterPayload where
  cluster_assignments : List (String × ℕ)
  cluster_statistics : List ClusterStats
  n_clusters : ℕ
  silhouette : ℚ
deriving Repr, DecidableEq

/-- `DataAnalyzer.perform_clustering` (lines 177-211).  scikit-learn's
`KMeans` rejects `n_clusters` of 0 or above the sample count before any
`self` field is assigned; `silhouette_score` (line 204) rejects label sets
with fewer than 2 or more than `n_samples - 1` distinct values, and by that
point `self.kmeans` and `self.cluster_labels` are already assigned
(lines 186-187). -/
def performClustering (sil : List (List ℚ) → List ℕ → ℚ) (st : AnalyzerState) (k : ℕ) :
    AnalyzerState × Except String ClusterPayload :=
  match st.pca_data with
  | none => (st, .error "PCA not performed. Call perform_pca first.")
  | some X =>
      if k = 0 ∨ X.length < k then
        (st, .error "n_clusters should be >= 1 and <= n_samples")
      else
        let fit := kmeansFit 42 10 X k
        let labels := fit.1
        let st2 := { st with kmeans := some fit, cluster_labels := some labels }
        let mats := st.matricules.getD []
        let data := st.data.getD []
        if labels.dedup.length < 2 ∨ X.length - 1 < labels.dedup.length then
          (st2, .error "Number of labels is invalid for silhouette_score")
        else
          (st2, .ok ⟨mats.zip labels, clusterStatistics data mats labels k, k, sil X labels⟩)

/-- Success payload of `create_biplot` (lines 314-321): the requested 1-based
axes, the 0-based columns the figure actually reads after Python/numpy index
resolution, and the explained-variance entries reported for them. -/
structure BiplotPayload where
  pc1 : ℤ
  pc2 : ℤ
  idx1 : ℕ
  idx2 : ℕ
  explained_variance_pc1 : ℚ
  explained_variance_pc2 : ℚ
deriving Repr, DecidableEq

/-- Python/numpy index resolution on an axis of length `c` for an index
already known to be `< c` and `≥ -c`: negative values count from the end. -/
def pyResolve (c : ℕ) (i : ℤ) : ℕ := if i < 0 then ((c : ℤ) + i).toNat else i.toNat

/-- `DataAnalyzer.create_biplot` (lines 213-327).  Failure sources in order
of occurrence: the explicit bound check of lines 224-225 (1-based index
whose 0-based form is at least `shape[1]`); numpy rejecting a negative
0-based index below `-shape[1]` when slicing `self.pca_data` (line 237);
and `px.colors.qualitative.Set1` holding only 9 colors, so `colors[i]`
(line 241) raises once a 10th distinct cluster label is reached.  The
figure-assembly calls themselves cannot fail and are modelled by the
payload's resolved indices and variance entries. -/
def createBiplot (st : AnalyzerState) (pc1 pc2 : ℤ) : Except String BiplotPayload :=
  match st.pca_data, st.cluster_labels with
  | some X, some labels =>
      let c := numCols X
      let i1 := pc1 - 1
      let i2 := pc2 - 1
      if (c : ℤ) ≤ i1 ∨ (c : ℤ) ≤ i2 then
        .error "Selected principal components exceed available components."
      else if i1 < -(c : ℤ) ∨ i2 < -(c : ℤ) then
        .error "index out of bounds for axis 1"
      else if 9 < labels.dedup.length then
        .error "list index out of range"
      else
        let ev := st.explained_variance.getD []
        .ok ⟨pc1, pc2, pyResolve c i1, pyResolve c i2,
          ev.getD (pyResolve c i1) 0, ev.getD (pyResolve c i2) 0⟩
  | _, _ => .error "PCA and clustering must be performed first."

/-- Export bundle of `export_analysis_results` (lines 440-459). -/
structure ExportPayload where
  selected_modules : List String
  n_components : ℕ
  n_clusters : ℕ
  sample_size : ℕ
  explained_variance : List ℚ
  cumulative_variance : List ℚ
  loadings : List (List ℚ)
  assignments : List (String × ℕ)
  statistics : List ClusterStats
deriving Repr, DecidableEq

/-- `DataAnalyzer.export_analysis_results` (lines 434-470). -/
def exportAnalysisResults (st : AnalyzerState) : Except String ExportPayload :=
  match st.pca, st.cluster_labels with
  | some m, some labels =>
      let mods := st.selected_modules.getD []
      let ev := st.explained_variance.getD []
      let mats := st.matricules.getD []
      let data := st.data.getD []
      let nClusters := labels.dedup.length
      .ok ⟨mods, m, nClusters, data.length, ev, npCumsum ev, st.loadings.getD [],
        mats.zip labels, clusterStatistics data mats labels nClusters⟩
  | _, _ => .error "Complete analysis not performed."

/-- Degenerate backend used to instantiate theorems that quantify over the
library factorization: it returns empty outputs, which trivially satisfy the
library's documented guarantees. -/
def pcaBackendZero : PCABackend :=
  ⟨fun _ _ => [], fun _ _ => [], fun _ _ => []⟩

/-- The elbow-selection rule exactly as the specification sentence states
it, for comparison with the source's `findElbowPoint`: return
`k_range[argmax(second_derivative) + 2]` when that index is in range and at
least 3 candidates exist; otherwise walk the first differences from the
second element onward and return the first k whose decrease magnitude drops
below 70% of the preceding decrease; otherwise default to
`min(3, max_candidate)`. -/
def elbowRuleSpec (kr : List ℕ) (inertias : List ℚ) : ℕ :=
  let diffs := npDiff inertias
  let diff2 := npDiff diffs
  if 3 ≤ kr.length ∧ npArgmax diff2 + 2 < kr.length then
    kr.getD (npArgmax diff2 + 2) 0
  else
    match fallbackIdx diffs with
    | some i => kr.getD (i + 1) 0
    | none => min 3 (kr.foldr max 0)

/-- Discriminated-result check: a result is either a success or a failure
carrying a nonempty message. -/
def isDiscriminated {α : Type} (r : Except String α) : Bool :=
  match r with
  | .ok _ => true
  | .error m => !(m == "")

/-- A small loaded state used to instantiate theorems: 3 rows, 2 resolved
features, as left behind by a successful `load_data`. -/
def loadedState32 : AnalyzerState :=
  { initState with
      data := some [[1, 2], [3, 4], [5, 6]]
      selected_modules := some ["A", "B"]
      matricules := some ["s1", "s2", "s3"] }

/-- A state carrying every artifact of a finished pipeline run, as the
analyzer holds after PCA and clustering have completed. -/
def staleState : AnalyzerState :=
  { data := some [[1]]
    selected_modules := some ["A"]
    matricules := some ["s1"]
    pca := some 1
    pca_data := some [[5], [6]]
    kmeans := some ([0, 1], 37)
    cluster_labels := some [0, 1]
    explained_variance := some [1]
    loadings := some [[1]] }

/-- A loaded state whose 5 rows are all the identical feature vector
`[3, 4]` (the spec's end-to-end scenario C). -/
def identicalRowsState : AnalyzerState :=
  { initState with
      data := some [[3, 4], [3, 4], [3, 4], [3, 4], [3, 4]]
      selected_modules := some ["A", "B"]
      matricules := some ["s1", "s2", "s3", "s4", "s5"] }

/-- A completed-pipeline state whose clustering produced 10 distinct labels
(reachable, e.g. k = 10 on at least 11 rows; here recorded directly in the
state the Reporter reads). -/
def tenClusterState : AnalyzerState :=
  { initState with
      data := some [[1, 2], [1, 2], [1, 2], [1, 2], [1, 2],
        [1, 2], [1, 2], [1, 2], [1, 2], [1, 2]]
      matricules := some ["a", "b", "c", "d", "e", "f", "g", "h", "i", "j"]
      pca := some 2
      pca_data := some [[1, 2], [1, 2], [1, 2], [1, 2], [1, 2],
        [1, 2], [1, 2], [1, 2], [1, 2], [1, 2]]
      cluster_labels := some [0, 1, 2, 3, 4, 5, 6, 7, 8, 9]
      explained_variance := some [1, 0]
      loadings := some [[1, 0], [0, 1]] }

theorem pcaBackendZero_contract : PCAContract pcaBackendZero := by
  intro X m
  refine ⟨?_, ?_, ?_⟩ <;> simp [pcaBackendZero]

theorem npArgmaxGo_cases (ys : List ℚ) : ∀ (best : ℕ) (bv : ℚ) (i : ℕ),
    npArgmaxGo best bv i ys = best ∨
      (i ≤ npArgmaxGo best bv i ys ∧ npArgmaxGo best bv i ys < i + ys.length) := by
  induction ys with
  | nil => intro best bv i; left; rfl
  | cons y ys ih =>
      intro best bv i
      simp only [npArgmaxGo, List.length_cons]
      by_cases h : bv < y
      · rw [if_pos h]
        rcases ih i y (i + 1) with h1 | h1
        · right; rw [h1]; omega
        · right; omega
      · rw [if_neg h]
        rcases ih best bv (i + 1) with h1 | h1
        · left; exact h1
        · right; omega

theorem npArgmax_lt_length (l : List ℚ) (h : l ≠ []) : npArgmax l < l.length := by
  cases l with
  | nil => exact absurd rfl h
  | cons x xs =>
      simp only [npArgmax, List.length_cons]
      rcases npArgmaxGo_cases xs 0 x 1 with h1 | h1
      · rw [h1]; omega
      · omega

theorem length_npDiff (l : List ℚ) : (npDiff l).length = l.length - 1 := by
  cases l with
  | nil => rfl
  | cons x xs => simp [npDiff]

theorem chain'_le_scanl (l : List ℚ) : ∀ a : ℚ, (∀ x ∈ l, 0 ≤ x) →
    List.Chain' (· ≤ ·) (List.scanl (· + ·) a l) := by
  induction l with
  | nil => intro a _; simp [List.scanl]
  | cons x xs ih =>
      intro a h
      rw [List.scanl, List.chain'_cons']
      constructor
      · intro b hb
        have hh : (List.scanl (· + ·) (a + x) xs).head? = some (a + x) := by
          cases xs <;> rfl
        rw [hh, Option.mem_some_iff] at hb
        have hx : 0 ≤ x := h x (by simp)
        linarith [hb.symm ▸ (le_refl b)]
      · exact ih (a + x) fun y hy => h y (by simp [hy])

theorem npCumsum_chain' (l : List ℚ) (h : ∀ x ∈ l, 0 ≤ x) :
    List.Chain' (· ≤ ·) (npCumsum l) :=
  (chain'_le_scanl l 0 h).tail

theorem eq_zero_of_sum_nonneg_zero (l : List ℚ) : (∀ x ∈ l, 0 ≤ x) → l.sum = 0 →
    ∀ x ∈ l, x = 0 := by
  induction l with
  | nil => simp
  | cons y ys ih =>
      intro h hsum x hx
      have hy : 0 ≤ y := h y (by simp)
      have hys : 0 ≤ ys.sum := List.sum_nonneg fun z hz => h z (by simp [hz])
      rw [List.sum_cons] at hsum
      rcases List.mem_cons.mp hx with rfl | hx2
      · linarith
      · exact ih (fun z hz => h z (by simp [hz])) (by linarith) x hx2

theorem sum_const_list (l : List ℚ) : ∀ c : ℚ, (∀ x ∈ l, x = c) →
    l.sum = l.length * c := by
  induction l with
  | nil => simp
  | cons y ys ih =>
      intro c h
      rw [List.sum_cons, ih c fun z hz => h z (by simp [hz]), h y (by simp),
        List.length_cons]
      push_cast
      ring

theorem colMean_const (c : ℚ) (l : List ℚ) (hne : l ≠ []) (h : ∀ x ∈ l, x = c) :
    colMean l = c := by
  have hlen : (l.length : ℚ) ≠ 0 := by
    simpa using fun hl => hne (List.length_eq_zero.mp hl)
  rw [colMean, sum_const_list l c h, mul_comm, mul_div_assoc, div_self hlen, mul_one]

theorem colVar_const (c : ℚ) (l : List ℚ) (h : ∀ x ∈ l, x = c) : colVar l = 0 := by
  rcases eq_or_ne l [] with rfl | hne
  · simp [colVar]
  · rw [colVar, List.sum_eq_zero, zero_div]
    intro y hy
    rcases List.mem_map.mp hy with ⟨x, hx, rfl⟩
    rw [h x hx, colMean_const c l hne h]
    ring

theorem standardizeColumn_of_var_zero (l : List ℚ) (hv : colVar l = 0) :
    standardizeColumn l = List.replicate l.length 0 := by
  rcases eq_or_ne l [] with rfl | hne
  · rfl
  · have hlen : (l.length : ℚ) ≠ 0 := by
      simpa using fun hl => hne (List.length_eq_zero.mp hl)
    have hsum : (l.map fun x => (x - colMean l) ^ 2).sum = 0 := by
      rcases div_eq_zero_iff.mp hv with h1 | h1
      · exact h1
      · exact absurd h1 hlen
    have hzero : ∀ x ∈ l, x - colMean l = 0 := by
      intro x hx
      have h2 : (x - colMean l) ^ 2 = 0 := by
        refine eq_zero_of_sum_nonneg_zero _ ?_ hsum _ (List.mem_map.mpr ⟨x, hx, rfl⟩)
        intro y hy
        rcases List.mem_map.mp hy with ⟨z, _, rfl⟩
        positivity
      exact pow_eq_zero_iff two_ne_zero |>.mp h2
    rw [standardizeColumn, scaleOf, if_pos hv]
    refine List.eq_replicate_iff.mpr ⟨by simp, ?_⟩
    intro b hb
    rcases List.mem_map.mp hb with ⟨x, hx, rfl⟩
    rw [hzero x hx]
    simp

theorem selectorKRange_eq (maxK n : ℕ) :
    selectorKRange maxK n = List.range' 1 (min maxK (n - 1)) := by
  unfold selectorKRange
  congr 1
  omega

/-- C1 counterexample: on the two-candidate curve `k_range = [1, 2]` with
inertias `[10, 5]` the source returns the first candidate 1 (lines 396-397),
while the rule stated by the claim falls through its empty 70%-walk to the
default `min(3, max_candidate) = 2`; so the recommended k is not computed as
the claim specifies. -/
theorem elbow_two_candidates_counterexample :
    findElbowPoint [1, 2] [(10 : ℚ), 5] = some 1 ∧
      elbowRuleSpec [1, 2] [(10 : ℚ), 5] = 2 ∧
      findElbowPoint [1, 2] [(10 : ℚ), 5] ≠ some (elbowRuleSpec [1, 2] [(10 : ℚ), 5]) := by
  refine ⟨rfl, rfl, ?_⟩
  decide

/-- C1 (amended): for every inertia-vs-k curve over the tested candidate
range (the curve and the candidate list have equal length), with at least 3
candidates the recommended k is `k_range[argmax(second_derivative) + 2]`,
whose index is always in range -- so the 70%-walk fallback and the final
default of lines 409-414 are unreachable there; with fewer than 3 candidates
the source returns the first candidate (2 for an empty range), not the
claim's walk/`min(3, max_candidate)` fallback. -/
theorem elbow_point_matches_source_rule (kr : List ℕ) (inertias : List ℚ)
    (hlen : kr.length = inertias.length) :
    (3 ≤ inertias.length → npArgmax (npDiff (npDiff inertias)) + 2 < kr.length) ∧
      findElbowPoint kr inertias =
        if 3 ≤ inertias.length then
          some (kr.getD (npArgmax (npDiff (npDiff inertias)) + 2) 0)
        else some (kr.headD 2) := by
  have hlen2 : (npDiff (npDiff inertias)).length = inertias.length - 2 := by
    rw [length_npDiff, length_npDiff]
    omega
  have hb : 3 ≤ inertias.length → npArgmax (npDiff (npDiff inertias)) + 2 < kr.length := by
    intro h3
    have hne : npDiff (npDiff inertias) ≠ [] := by
      intro he
      rw [he] at hlen2
      simp at hlen2
      omega
    have hlt := npArgmax_lt_length _ hne
    omega
  refine ⟨hb, ?_⟩
  by_cases h3 : 3 ≤ inertias.length
  · rw [if_pos h3]
    have hidx := hb h3
    simp only [findElbowPoint]
    rw [if_neg (by omega : ¬ inertias.length < 3),
      if_pos ⟨by omega, hidx⟩, List.getElem?_eq_getElem hidx,
      List.getD_eq_getElem kr 0 hidx]
  · rw [if_neg h3]
    simp only [findElbowPoint]
    rw [if_pos (by omega : inertias.length < 3)]

/-- C1 witness: the amended statement at the concrete three-candidate curve
`k_range = [1, 2, 3]`, inertias `[9, 4, 3]`. -/
theorem elbow_point_matches_source_rule_witness :
    ([1, 2, 3] : List ℕ).length = [(9 : ℚ), 4, 3].length ∧
      ((3 ≤ [(9 : ℚ), 4, 3].length →
          npArgmax (npDiff (npDiff [(9 : ℚ), 4, 3])) + 2 < ([1, 2, 3] : List ℕ).length) ∧
        findElbowPoint [1, 2, 3] [(9 : ℚ), 4, 3] =
          if 3 ≤ [(9 : ℚ), 4, 3].length then
            some (([1, 2, 3] : List ℕ).getD (npArgmax (npDiff (npDiff [(9 : ℚ), 4, 3])) + 2) 0)
          else some (([1, 2, 3] : List ℕ).headD 2)) :=
  ⟨rfl, elbow_point_matches_source_rule [1, 2, 3] [(9 : ℚ), 4, 3] rfl⟩

/-- C2: the Model Selector tests exactly the candidate counts
`1 .. min(max_k, n_rows - 1)` inclusive (`n_rows` being the reduced matrix's
row count, which equals the loaded row count since the projection is
row-preserving), and any recommended k it returns is one of those candidates
and lies within `[1, max_k]`. -/
theorem selector_candidates_and_recommendation (sil : List (List ℚ) → List ℕ → ℚ)
    (st : AnalyzerState) (X : List (List ℚ)) (maxK : ℕ) (hpd : st.pca_data = some X) :
    selectorKRange maxK X.length = List.range' 1 (min maxK (X.length - 1)) ∧
      ∀ p, (findOptimalClusters sil st maxK).2 = .ok p →
        p.k_range = List.range' 1 (min maxK (X.length - 1)) ∧
          p.optimal_k ∈ p.k_range ∧ 1 ≤ p.optimal_k ∧ p.optimal_k ≤ maxK := by
  refine ⟨selectorKRange_eq maxK X.length, ?_⟩
  intro p hp
  simp only [findOptimalClusters, hpd] at hp
  split at hp
  case _ optimalK he =>
    split at hp
    case _ hmem =>
      simp only [Except.ok.injEq] at hp
      subst hp
      rw [selectorKRange_eq] at hmem
      have hb := List.mem_range'_1.mp hmem
      refine ⟨selectorKRange_eq maxK X.length, ?_, ?_, ?_⟩
      · dsimp only
        rw [selectorKRange_eq]
        exact hmem
      · dsimp only
        omega
      · dsimp only
        omega
    case _ hmem => simp at hp
  case _ he => simp at hp

/-- C2 witness: the first conjunct of the theorem at a concrete state whose
reduced matrix has 4 rows, with `max_k = 10`: the tested candidates are 1..3. -/
theorem selector_candidates_witness :
    selectorKRange 10 ([[(0 : ℚ)], [1], [2], [3]] : List (List ℚ)).length =
      List.range' 1 (min 10 (([[(0 : ℚ)], [1], [2], [3]] : List (List ℚ)).length - 1)) :=
  (selector_candidates_and_recommendation (fun _ _ => 0)
    { initState with pca_data := some [[(0 : ℚ)], [1], [2], [3]] }
    [[(0 : ℚ)], [1], [2], [3]] 10 rfl).1

/-- C3 counterexample: on the loaded 3-row, 2-feature dataset a requested
component count of 5 exceeds `min(f, n) = 2`; the claim says the Reducer
clamps to the bound and succeeds, but the operation returns a failure
result (scikit-learn's `PCA.fit` rejects the parameter, and the method's
`except` converts the raise into `{'success': False, ...}`). -/
theorem pca_overlarge_components_counterexample :
    (performPca pcaBackendZero loadedState32 (some 5)).2 =
      .error "n_components must be between 0 and min(n_samples, n_features)" := rfl

/-- C3 (amended): the component count defaults to `min(f, n)` when not
specified and that default always succeeds; but a requested count exceeding
`min(n, f)` makes the operation return a failure result rather than
clamping. -/
theorem pca_component_default_and_reject (B : PCABackend) (st : AnalyzerState)
    (X : List (List ℚ)) (mods : List String)
    (hd : st.data = some X) (hm : st.selected_modules = some mods) :
    (∀ p, (performPca B st none).2 = .ok p → p.n_components = min mods.length X.length) ∧
      (∃ p, (performPca B st none).2 = .ok p) ∧
      ∀ m, min X.length mods.length < m →
        (performPca B st (some m)).2 =
          .error "n_components must be between 0 and min(n_samples, n_features)" := by
  obtain ⟨d, sm, mt, p1, pd, km, cl, ev0, ld⟩ := st
  dsimp only at hd hm
  subst hd
  subst hm
  have hnot : ¬ (min X.length mods.length < min mods.length X.length) := by omega
  refine ⟨?_, ?_, ?_⟩
  · intro p hp
    simp only [performPca, Option.getD_none] at hp
    rw [if_neg hnot] at hp
    simp only [Except.ok.injEq] at hp
    subst hp
    rfl
  · simp only [performPca, Option.getD_none]
    rw [if_neg hnot]
    exact ⟨_, rfl⟩
  · intro m hlt
    simp only [performPca, Option.getD_some]
    rw [if_pos hlt]

/-- C3 witness: the amended rejection branch at the concrete loaded state,
with requested component count 5 against `min(3, 2) = 2`. -/
theorem pca_component_reject_witness :
    (performPca pcaBackendZero loadedState32 (some 5)).2 =
      .error "n_components must be between 0 and min(n_samples, n_features)" :=
  (pca_component_default_and_reject pcaBackendZero loadedState32
    [[1, 2], [3, 4], [5, 6]] ["A", "B"] rfl rfl).2.2 5 (by decide)

/-- C4 counterexample: a new `load_data` call on a state holding a previous
run's artifacts succeeds and replaces the feature matrix, yet the previous
run's reduced matrix, cluster assignments, fitted k-means result and
loadings all remain observable in the state -- `load_data` assigns only
`self.data`, `self.selected_modules` and `self.matricules` (lines 66-68). -/
theorem load_keeps_stale_artifacts_counterexample :
    (loadData staleState [⟨"t1", [("B", 7)]⟩] ["B"]).2 = .ok ⟨(1, 1), ["B"], 1⟩ ∧
      (loadData staleState [⟨"t1", [("B", 7)]⟩] ["B"]).1.cluster_labels = some [0, 1] ∧
      (loadData staleState [⟨"t1", [("B", 7)]⟩] ["B"]).1.pca_data = some [[5], [6]] ∧
      (loadData staleState [⟨"t1", [("B", 7)]⟩] ["B"]).1.kmeans = some ([0, 1], 37) ∧
      (loadData staleState [⟨"t1", [("B", 7)]⟩] ["B"]).1.loadings = some [[1]] :=
  ⟨rfl, rfl, rfl, rfl, rfl⟩

/-- C4 (amended): a successful `load_data` replaces exactly the feature
matrix, resolved feature list and identifier list; it does not reset or
invalidate the downstream artifacts, which stay exactly as the previous
run left them. -/
theorem load_replaces_only_loader_fields (st : AnalyzerState)
    (recs : List StudentRecord) (sel : List String) (st' : AnalyzerState)
    (p : LoadPayload) (h : loadData st recs sel = (st', .ok p)) :
    st'.pca = st.pca ∧ st'.pca_data = st.pca_data ∧ st'.kmeans = st.kmeans ∧
      st'.cluster_labels = st.cluster_labels ∧
      st'.explained_variance = st.explained_variance ∧ st'.loadings = st.loadings ∧
      st'.data = some ((recs.filter (rowComplete (availableModules recs sel))).map
        fun r => (availableModules recs sel).map fun m => (lookupGrade r m).getD 0) ∧
      st'.selected_modules = some (availableModules recs sel) ∧
      st'.matricules =
        some ((recs.filter (rowComplete (availableModules recs sel))).map (·.matricule)) := by
  simp only [loadData] at h
  split at h
  · simp at h
  · split at h
    · simp at h
    · rw [Prod.mk.injEq] at h
      obtain ⟨rfl, -⟩ := h
      exact ⟨rfl, rfl, rfl, rfl, rfl, rfl, rfl, rfl, rfl⟩

/-- C4 witness: the amended statement at the concrete stale state and a
concrete successful reload. -/
theorem load_replaces_only_loader_fields_witness :
    ({ staleState with
        data := some [[7]]
        selected_modules := some ["B"]
        matricules := some ["t1"] } : AnalyzerState).pca = staleState.pca ∧
      ({ staleState with
          data := some [[7]]
          selected_modules := some ["B"]
          matricules := some ["t1"] } : AnalyzerState).pca_data = staleState.pca_data ∧
      ({ staleState with
          data := some [[7]]
          selected_modules := some ["B"]
          matricules := some ["t1"] } : AnalyzerState).kmeans = staleState.kmeans ∧
      ({ staleState with
          data := some [[7]]
          selected_modules := some ["B"]
          matricules := some ["t1"] } : AnalyzerState).cluster_labels = staleState.cluster_labels ∧
      ({ staleState with
          data := some [[7]]
          selected_modules := some ["B"]
          matricules := some ["t1"] } : AnalyzerState).explained_variance =
        staleState.explained_variance ∧
      ({ staleState with
          data := some [[7]]
          selected_modules := some ["B"]
          matricules := some ["t1"] } : AnalyzerState).loadings = staleState.loadings ∧
      ({ staleState with
          data := some [[7]]
          selected_modules := some ["B"]
          matricules := some ["t1"] } : AnalyzerState).data =
        some (([⟨"t1", [("B", 7)]⟩] : List StudentRecord).filter
            (rowComplete (availableModules [⟨"t1", [("B", 7)]⟩] ["B"])) |>.map
          fun r => (availableModules [⟨"t1", [("B", 7)]⟩] ["B"]).map
            fun m => (lookupGrade r m).getD 0) ∧
      ({ staleState with
          data := some [[7]]
          selected_modules := some ["B"]
          matricules := some ["t1"] } : AnalyzerState).selected_modules =
        some (availableModules [⟨"t1", [("B", 7)]⟩] ["B"]) ∧
      ({ staleState with
          data := some [[7]]
          selected_modules := some ["B"]
          matricules := some ["t1"] } : AnalyzerState).matricules =
        some (([⟨"t1", [("B", 7)]⟩] : List StudentRecord).filter
            (rowComplete (availableModules [⟨"t1", [("B", 7)]⟩] ["B"])) |>.map (·.matricule)) :=
  load_replaces_only_loader_fields staleState [⟨"t1", [("B", 7)]⟩] ["B"]
    { staleState with
        data := some [[7]]
        selected_modules := some ["B"]
        matricules := some ["t1"] }
    ⟨(1, 1), ["B"], 1⟩ rfl

/-- C5: the resolved feature list is the order-preserving filter of the
requested list to the names present in the record schema; the loader fails
with the no-modules error when nothing resolves, keeps exactly the records
in which every resolved feature is present, and fails with the no-valid-rows
error when that filter empties the matrix. -/
theorem loader_resolution_and_row_filter (st : AnalyzerState)
    (records : List StudentRecord) (requested : List String) :
    (availableModules records requested).Sublist requested ∧
      (∀ m, m ∈ availableModules records requested ↔
        m ∈ requested ∧ moduleAvailable records m = true) ∧
      (∀ r, r ∈ records.filter (rowComplete (availableModules records requested)) ↔
        r ∈ records ∧ ∀ m ∈ availableModules records requested,
          (lookupGrade r m).isSome = true) ∧
      loadData st records requested =
        (if availableModules records requested = [] then
          (st, .error "None of the selected modules are available in the data")
        else if records.filter (rowComplete (availableModules records requested)) = [] then
          (st, .error "No valid data after removing missing values")
        else
          ({ st with
              data := some ((records.filter (rowComplete (availableModules records requested))).map
                fun r => (availableModules records requested).map
                  fun m => (lookupGrade r m).getD 0)
              selected_modules := some (availableModules records requested)
              matricules := some ((records.filter
                (rowComplete (availableModules records requested))).map (·.matricule)) },
            .ok ⟨((records.filter (rowComplete (availableModules records requested))).length,
              (availableModules records requested).length),
              availableModules records requested,
              (records.filter (rowComplete (availableModules records requested))).length⟩)) := by
  refine ⟨List.filter_sublist _, ?_, ?_, ?_⟩
  · intro m
    simp [availableModules, List.mem_filter]
  · intro r
    simp [List.mem_filter, rowComplete, List.all_eq_true]
  · simp only [loadData, List.isEmpty_iff]

/-- C5 witness: the loader equation at a concrete record list where one
requested module resolves and one record is incomplete. -/
theorem loader_resolution_witness :
    loadData initState [⟨"s1", [("A", 12)]⟩, ⟨"s2", []⟩] ["A", "B"] =
      (if availableModules [⟨"s1", [("A", 12)]⟩, ⟨"s2", []⟩] ["A", "B"] = [] then
        (initState, .error "None of the selected modules are available in the data")
      else if ([⟨"s1", [("A", 12)]⟩, ⟨"s2", []⟩] : List StudentRecord).filter
          (rowComplete (availableModules [⟨"s1", [("A", 12)]⟩, ⟨"s2", []⟩] ["A", "B"])) = [] then
        (initState, .error "No valid data after removing missing values")
      else
        ({ initState with
            data := some ((([⟨"s1", [("A", 12)]⟩, ⟨"s2", []⟩] : List StudentRecord).filter
              (rowComplete (availableModules [⟨"s1", [("A", 12)]⟩, ⟨"s2", []⟩] ["A", "B"]))).map
                fun r => (availableModules [⟨"s1", [("A", 12)]⟩, ⟨"s2", []⟩] ["A", "B"]).map
                  fun m => (lookupGrade r m).getD 0)
            selected_modules := some (availableModules [⟨"s1", [("A", 12)]⟩, ⟨"s2", []⟩] ["A", "B"])
            matricules := some ((([⟨"s1", [("A", 12)]⟩, ⟨"s2", []⟩] : List StudentRecord).filter
              (rowComplete (availableModules [⟨"s1", [("A", 12)]⟩, ⟨"s2", []⟩] ["A", "B"]))).map
                (·.matricule)) },
          .ok ⟨((([⟨"s1", [("A", 12)]⟩, ⟨"s2", []⟩] : List StudentRecord).filter
              (rowComplete (availableModules [⟨"s1", [("A", 12)]⟩, ⟨"s2", []⟩] ["A", "B"]))).length,
            (availableModules [⟨"s1", [("A", 12)]⟩, ⟨"s2", []⟩] ["A", "B"]).length),
            availableModules [⟨"s1", [("A", 12)]⟩, ⟨"s2", []⟩] ["A", "B"],
            (([⟨"s1", [("A", 12)]⟩, ⟨"s2", []⟩] : List StudentRecord).filter
              (rowComplete (availableModules [⟨"s1", [("A", 12)]⟩, ⟨"s2", []⟩] ["A", "B"]))).length⟩)) :=
  (loader_resolution_and_row_filter initState
    [⟨"s1", [("A", 12)]⟩, ⟨"s2", []⟩] ["A", "B"]).2.2.2

theorem append_suffix_ne_empty (s : String) : s ++ " is not in list" ≠ "" := by
  intro h
  have hl := congrArg String.length h
  rw [String.length_append] at hl
  have h15 : (" is not in list" : String).length = 15 := rfl
  have h0 : ("" : String).length = 0 := rfl
  omega

/-- C6: every public pipeline operation, on every state and input, returns
a discriminated result -- a success payload or a failure carrying a
nonempty human-readable message -- mirroring the source's uniform
`try/except` boundary that converts every raise into
`{'success': False, 'error': str(e)}` with no other payload key. -/
theorem boundary_results_discriminated (B : PCABackend)
    (sil : List (List ℚ) → List ℕ → ℚ) (st : AnalyzerState)
    (recs : List StudentRecord) (sel : List String) (nc : Option ℕ)
    (maxK k : ℕ) (pc1 pc2 : ℤ) :
    isDiscriminated (loadData st recs sel).2 = true ∧
      isDiscriminated (performPca B st nc).2 = true ∧
      isDiscriminated (findOptimalClusters sil st maxK).2 = true ∧
      isDiscriminated (performClustering sil st k).2 = true ∧
      isDiscriminated (createBiplot st pc1 pc2) = true ∧
      isDiscriminated (exportAnalysisResults st) = true := by
  obtain ⟨d, sm, mt, p1, pd, km, cl, ev, ld⟩ := st
  refine ⟨?_, ?_, ?_, ?_, ?_, ?_⟩
  · simp only [loadData]
    split
    · rfl
    · split
      · rfl
      · rfl
  · cases d with
    | none => rfl
    | some X =>
        cases sm with
        | none => rfl
        | some mods =>
            simp only [performPca]
            split
            · rfl
            · rfl
  · cases pd with
    | none => rfl
    | some X =>
        simp only [findOptimalClusters]
        split
        · split
          · rfl
          · simp only [isDiscriminated]
            rw [Bool.not_eq_eq_eq_not]
            simp only [Bool.not_true]
            exact beq_eq_false_iff_ne.mpr (append_suffix_ne_empty _)
        · rfl
  · cases pd with
    | none => rfl
    | some X =>
        simp only [performClustering]
        split
        · rfl
        · split
          · rfl
          · rfl
  · cases pd with
    | none => rfl
    | some X =>
        cases cl with
        | none => rfl
        | some labels =>
            simp only [createBiplot]
            split
            · rfl
            · split
              · rfl
              · split
                · rfl
                · rfl
  · cases p1 with
    | none => rfl
    | some m =>
        cases cl with
        | none => rfl
        | some labels => rfl

/-- C6 witness: the discriminated-result statement at a fresh state and
concrete inputs for every operation. -/
theorem boundary_results_discriminated_witness :
    isDiscriminated (loadData initState [⟨"s1", [("A", 12)]⟩] ["A"]).2 = true ∧
      isDiscriminated (performPca pcaBackendZero initState none).2 = true ∧
      isDiscriminated (findOptimalClusters (fun _ _ => 0) initState 10).2 = true ∧
      isDiscriminated (performClustering (fun _ _ => 0) initState 2).2 = true ∧
      isDiscriminated (createBiplot initState 1 2) = true ∧
      isDiscriminated (exportAnalysisResults initState) = true :=
  boundary_results_discriminated pcaBackendZero (fun _ _ => 0) initState
    [⟨"s1", [("A", 12)]⟩] ["A"] none 10 2 1 2

/-- C7: on every successful Reducer run, under scikit-learn's documented
contract for `explained_variance_ratio_`, the returned ratios are
nonnegative, non-increasing and sum to at most 1 (hence at most 1 + eps for
any eps at least 0), and the returned cumulative sequence is exactly
`np.cumsum` of the ratios (line 119) and is monotonically non-decreasing. -/
theorem pca_variance_properties (B : PCABackend) (hB : PCAContract B)
    (st : AnalyzerState) (nc : Option ℕ) (p : PCAPayload)
    (hok : (performPca B st nc).2 = .ok p) :
    (∀ r ∈ p.explained_variance, 0 ≤ r) ∧
      List.Chain' (· ≥ ·) p.explained_variance ∧
      p.explained_variance.sum ≤ 1 ∧
      p.cumulative_variance = npCumsum p.explained_variance ∧
      List.Chain' (· ≤ ·) p.cumulative_variance := by
  obtain ⟨d, sm, mt, p1, pd, km, cl, ev0, ld⟩ := st
  cases d with
  | none => simp [performPca] at hok
  | some X =>
      cases sm with
      | none => simp [performPca] at hok
      | some mods =>
          simp only [performPca] at hok
          split at hok
          · simp at hok
          · simp only [Except.ok.injEq] at hok
            subst hok
            obtain ⟨h1, h2, h3⟩ :=
              hB (standardizeMatrix X) (nc.getD (min mods.length X.length))
            exact ⟨h1, h2, h3, rfl, npCumsum_chain' _ h1⟩

/-- C7 witness: the cumulative-equals-running-sum conjunct at the concrete
loaded state under the degenerate backend, which satisfies the contract. -/
theorem pca_variance_properties_witness :
    PCAContract pcaBackendZero ∧
      (PCAPayload.mk ([] : List ℚ) [] [] 2 (0, 0)).cumulative_variance =
        npCumsum (PCAPayload.mk ([] : List ℚ) [] [] 2 (0, 0)).explained_variance :=
  ⟨pcaBackendZero_contract,
    (pca_variance_properties pcaBackendZero pcaBackendZero_contract loadedState32 none
      ⟨[], [], [], 2, (0, 0)⟩ rfl).2.2.2.1⟩

/-- C8: the clustering step is deterministic -- two invocations on states
agreeing in every field the step consumes or carries (reduced matrix,
identifier list, feature matrix, previous clustering fields) produce the
same result payload (hence identical per-row assignments) and the same
fitted labels-and-inertia state, because the source fixes
`random_state=42, n_init=10` (line 186) and the seeded fit is a pure
function of the matrix and k. -/
theorem clustering_deterministic (sil : List (List ℚ) → List ℕ → ℚ)
    (s1 s2 : AnalyzerState) (k : ℕ)
    (hpd : s1.pca_data = s2.pca_data) (hmt : s1.matricules = s2.matricules)
    (hdt : s1.data = s2.data) (hkm : s1.kmeans = s2.kmeans)
    (hcl : s1.cluster_labels = s2.cluster_labels) :
    (performClustering sil s1 k).2 = (performClustering sil s2 k).2 ∧
      (performClustering sil s1 k).1.cluster_labels =
        (performClustering sil s2 k).1.cluster_labels ∧
      (performClustering sil s1 k).1.kmeans = (performClustering sil s2 k).1.kmeans := by
  obtain ⟨d1, sm1, mt1, p11, pd1, km1, cl1, ev1, ld1⟩ := s1
  obtain ⟨d2, sm2, mt2, p12, pd2, km2, cl2, ev2, ld2⟩ := s2
  dsimp only at hpd hmt hdt hkm hcl
  subst hpd
  subst hmt
  subst hdt
  subst hkm
  subst hcl
  cases pd1 with
  | none => exact ⟨rfl, rfl, rfl⟩
  | some X =>
      simp only [performClustering]
      by_cases hk : k = 0 ∨ X.length < k
      · simp only [if_pos hk]
        refine ⟨?_, ?_, ?_⟩ <;> trivial
      · simp only [if_neg hk]
        by_cases hs : (kmeansFit 42 10 X k).1.dedup.length < 2 ∨
            X.length - 1 < (kmeansFit 42 10 X k).1.dedup.length
        · simp only [if_pos hs]
          refine ⟨?_, ?_, ?_⟩ <;> trivial
        · simp only [if_neg hs]
          refine ⟨?_, ?_, ?_⟩ <;> trivial

/-- C8 witness: the determinism statement at two concrete states that share
the clustering-relevant fields but differ in an unrelated field
(`loadings`). -/
theorem clustering_deterministic_witness :
    (performClustering (fun _ _ => 0)
        { initState with
            data := some [[(0 : ℚ)], [1]]
            matricules := some ["a", "b"]
            pca_data := some [[(0 : ℚ)], [1]] } 2).2 =
      (performClustering (fun _ _ => 0)
        { initState with
            data := some [[(0 : ℚ)], [1]]
            matricules := some ["a", "b"]
            pca_data := some [[(0 : ℚ)], [1]]
            loadings := some [[3]] } 2).2 ∧
      (performClustering (fun _ _ => 0)
          { initState with
              data := some [[(0 : ℚ)], [1]]
              matricules := some ["a", "b"]
              pca_data := some [[(0 : ℚ)], [1]] } 2).1.cluster_labels =
        (performClustering (fun _ _ => 0)
          { initState with
              data := some [[(0 : ℚ)], [1]]
              matricules := some ["a", "b"]
              pca_data := some [[(0 : ℚ)], [1]]
              loadings := some [[3]] } 2).1.cluster_labels ∧
      (performClustering (fun _ _ => 0)
          { initState with
              data := some [[(0 : ℚ)], [1]]
              matricules := some ["a", "b"]
              pca_data := some [[(0 : ℚ)], [1]] } 2).1.kmeans =
        (performClustering (fun _ _ => 0)
          { initState with
              data := some [[(0 : ℚ)], [1]]
              matricules := some ["a", "b"]
              pca_data := some [[(0 : ℚ)], [1]]
              loadings := some [[3]] } 2).1.kmeans :=
  clustering_deterministic (fun _ _ => 0) _ _ 2 rfl rfl rfl rfl rfl

theorem getD_replicate_zero (n i : ℕ) : (List.replicate n (0 : ℚ)).getD i 0 = 0 := by
  rcases Nat.lt_or_ge i n with h | h
  · rw [List.getD_eq_getElem _ _ (by simpa using h), List.getElem_replicate]
  · rw [List.getD_eq_default]
    simpa using h

/-- C9: standardization is total -- a zero-variance column is divided by the
substituted scale 1, never by zero, and standardizes to the all-zero column;
on a dataset whose rows are all identical the whole standardized matrix is
zero and `perform_pca` with the default component count completes
successfully. -/
theorem standardization_degenerate_safe (B : PCABackend) (st : AnalyzerState)
    (X : List (List ℚ)) (mods : List String) (v : List ℚ)
    (hd : st.data = some X) (hm : st.selected_modules = some mods)
    (hall : ∀ r ∈ X, r = v) :
    (∀ col, colVar col = 0 → standardizeColumn col = List.replicate col.length 0) ∧
      standardizeMatrix X = List.replicate X.length (List.replicate (numCols X) 0) ∧
      ∃ p, (performPca B st none).2 = .ok p := by
  obtain ⟨d, sm, mt, p1, pd, km, cl, ev0, ld⟩ := st
  dsimp only at hd hm
  subst hd
  subst hm
  refine ⟨fun col h => standardizeColumn_of_var_zero col h, ?_, ?_⟩
  · have hcols : ∀ c ∈ (matCols X).map standardizeColumn, c = List.replicate X.length 0 := by
      intro c hc
      rcases List.mem_map.mp hc with ⟨col, hcol, rfl⟩
      rcases List.mem_map.mp hcol with ⟨j, _, rfl⟩
      have hconst : ∀ x ∈ nthColumn X j, x = v.getD j 0 := by
        intro x hx
        rcases List.mem_map.mp hx with ⟨r, hr, rfl⟩
        rw [hall r hr]
      rw [standardizeColumn_of_var_zero _ (colVar_const (v.getD j 0) _ hconst)]
      congr 1
      simp [nthColumn]
    unfold standardizeMatrix
    refine List.eq_replicate_iff.mpr ⟨by simp, ?_⟩
    intro row hrow
    rcases List.mem_map.mp hrow with ⟨i, _, rfl⟩
    refine List.eq_replicate_iff.mpr ⟨by simp [matCols], ?_⟩
    intro b hb
    rcases List.mem_map.mp hb with ⟨c, hc, rfl⟩
    rw [hcols c hc]
    exact getD_replicate_zero _ _
  · simp only [performPca, Option.getD_none]
    rw [if_neg (show ¬ min X.length mods.length < min mods.length X.length by omega)]
    exact ⟨_, rfl⟩

/-- C9 witness: the standardized matrix of the concrete 5-identical-rows
dataset is the zero matrix, via the main theorem. -/
theorem standardization_degenerate_safe_witness :
    standardizeMatrix [[(3 : ℚ), 4], [3, 4], [3, 4], [3, 4], [3, 4]] =
      List.replicate ([[(3 : ℚ), 4], [3, 4], [3, 4], [3, 4], [3, 4]] : List (List ℚ)).length
        (List.replicate (numCols [[(3 : ℚ), 4], [3, 4], [3, 4], [3, 4], [3, 4]]) 0) :=
  (standardization_degenerate_safe pcaBackendZero identicalRowsState
    [[(3 : ℚ), 4], [3, 4], [3, 4], [3, 4], [3, 4]] ["A", "B"] [3, 4]
    rfl rfl (by decide)).2.1

/-- C10 counterexample: on a completed pipeline with 10 distinct cluster
labels, the perfectly in-range request (pc1, pc2) = (1, 2) is not rejected
by the component-bound check, yet the operation fails -- the qualitative
`Set1` palette has 9 colors and `colors[i]` raises `IndexError` at the
10th cluster (line 241) -- so it is not true that only out-of-range
component indices are rejected and everything else returns success. -/
theorem biplot_palette_overflow_counterexample :
    createBiplot tenClusterState 1 2 = .error "list index out of range" := by decide

/-- C10 (amended): provided the assignment has at most 9 distinct labels,
the biplot rejects with the explicit bound error exactly when a requested
index's 0-based form reaches the component count; a requested index of 0 or
a negative one whose 0-based form is at least `-c` is accepted, resolves by
Python negative indexing (0 selects the last component), and the operation
succeeds. -/
theorem biplot_index_resolution (st : AnalyzerState) (X : List (List ℚ))
    (labels : List ℕ) (ev : List ℚ) (pc1 pc2 : ℤ)
    (h1 : st.pca_data = some X) (h2 : st.cluster_labels = some labels)
    (h3 : st.explained_variance = some ev) (h9 : labels.dedup.length ≤ 9) :
    (((numCols X : ℤ) ≤ pc1 - 1 ∨ (numCols X : ℤ) ≤ pc2 - 1) →
        createBiplot st pc1 pc2 =
          .error "Selected principal components exceed available components.") ∧
      ((pc1 - 1 < (numCols X : ℤ) ∧ pc2 - 1 < (numCols X : ℤ) ∧
          -(numCols X : ℤ) ≤ pc1 - 1 ∧ -(numCols X : ℤ) ≤ pc2 - 1) →
        createBiplot st pc1 pc2 =
          .ok ⟨pc1, pc2, pyResolve (numCols X) (pc1 - 1), pyResolve (numCols X) (pc2 - 1),
            ev.getD (pyResolve (numCols X) (pc1 - 1)) 0,
            ev.getD (pyResolve (numCols X) (pc2 - 1)) 0⟩) ∧
      (pc1 = 0 → pyResolve (numCols X) (pc1 - 1) = numCols X - 1) := by
  obtain ⟨d, sm, mt, p1, pd, km, cl, ev0, ld⟩ := st
  dsimp only at h1 h2 h3
  subst h1
  subst h2
  subst h3
  refine ⟨?_, ?_, ?_⟩
  · intro hout
    simp only [createBiplot]
    rw [if_pos hout]
  · rintro ⟨ha, hb, hc, hd2⟩
    simp only [createBiplot]
    rw [if_neg (by omega), if_neg (by omega),
      if_neg (show ¬ 9 < labels.dedup.length by omega)]
    rfl
  · intro h0
    subst h0
    simp only [pyResolve]
    rw [if_pos (show (0 : ℤ) - 1 < 0 by omega)]
    omega

/-- C10 witness: on a completed 2-component, 2-cluster state, the request
(pc1, pc2) = (0, 1) is accepted and axis 0 resolves to the last component. -/
theorem biplot_index_resolution_witness :
    createBiplot
        { initState with
            pca_data := some [[(1 : ℚ), 2], [3, 4]]
            cluster_labels := some [0, 1]
            explained_variance := some [1, 0] } 0 1 =
      .ok ⟨0, 1, pyResolve (numCols [[(1 : ℚ), 2], [3, 4]]) (0 - 1),
        pyResolve (numCols [[(1 : ℚ), 2], [3, 4]]) (1 - 1),
        ([(1 : ℚ), 0]).getD (pyResolve (numCols [[(1 : ℚ), 2], [3, 4]]) (0 - 1)) 0,
        ([(1 : ℚ), 0]).getD (pyResolve (numCols [[(1 : ℚ), 2], [3, 4]]) (1 - 1)) 0⟩ ∧
      pyResolve (numCols [[(1 : ℚ), 2], [3, 4]]) (0 - 1) =
        numCols [[(1 : ℚ), 2], [3, 4]] - 1 :=
  ⟨(biplot_index_resolution
      { initState with
          pca_data := some [[(1 : ℚ), 2], [3, 4]]
          cluster_labels := some [0, 1]
          explained_variance := some [1, 0] }
      [[(1 : ℚ), 2], [3, 4]] [0, 1] [1, 0] 0 1 rfl rfl rfl (by decide)).2.1
    (by decide),
    (biplot_index_resolution
      { initState with
          pca_data := some [[(1 : ℚ), 2], [3, 4]]
          cluster_labels := some [0, 1]
          explained_variance := some [1, 0] }
      [[(1 : ℚ), 2], [3, 4]] [0, 1] [1, 0] 0 1 rfl rfl rfl (by decide)).2.2 rfl⟩
